import Mathlib

/-!
Shallow embedding of the `django-search` repository (app `quote`):
  - `src/quote/models.py` : the `Quote` model (one table with `id`, `name`, `quote`)
  - `src/quote/views.py`  : `QuoteList` (plain `ListView`, no `paginate_by`) and
    `SearchResultsList.get_queryset` (a `Q(name__icontains=query) | Q(quote__icontains=query)`
    filter over `Quote.objects`)
  - `src/quote/faker.py`  : `add_fake_data`, a loop of 10000 `Quote.objects.create` calls
    fed by a `Faker` instance.

A database table is modelled as a `List Quote` in insertion order.  Django /
PostgreSQL semantics that the view code relies on are embedded explicitly:
  - `request.GET.get (q)` yields `none` when the parameter is absent, and Django's
    query builder raises `ValueError (Cannot use None as a query value)` when a
    pattern lookup such as `icontains` receives `None`; so the queryset
    construction is `Option String → List Quote → Except String (List Quote)`.
  - `icontains` is PostgreSQL `UPPER(field) LIKE UPPER(pattern)`: case-insensitive
    substring containment, modelled by lowercasing both sides character-wise and
    asking for a list-infix.
-/

namespace DjangoSearch

/-- A row of the `quote_quote` table (`src/quote/models.py`): `id` is the primary key
the store assigns on creation, `name` is a `CharField (max_length 250)` and `quote`
a `TextField (max_length 1000)`.  Neither column is nullable, which the embedding
expresses by using total `String` fields. -/
structure Quote where
  id : Nat
  name : String
  quote : String
  deriving DecidableEq

/-- Character-wise lowercasing of a string, as the list of its lowercased characters.
This is the common case-folding applied to both sides of an `icontains` lookup. -/
def lowerChars (s : String) : List Char := s.data.map Char.toLower

/-- Django's `field__icontains=pat` lookup on a non-null column: `pat` occurs
case-insensitively as a contiguous substring of the stored value. -/
def icontains (stored pat : String) : Bool :=
  decide (lowerChars pat <:+: lowerChars stored)

/-- The row predicate built by `Q(name__icontains=q) | Q(quote__icontains=q)`
in `SearchResultsList.get_queryset` (`src/quote/views.py` lines 21-25). -/
def matchesQuery (q : String) (r : Quote) : Bool :=
  icontains r.name q || icontains r.quote q

/-- `SearchResultsList.get_queryset` (`src/quote/views.py` lines 21-25):
`query = self.request.GET.get (q)` is `none` when the parameter is absent, and the
subsequent `filter` with `icontains=None` raises `ValueError`; a present value
(any string, including the empty one) filters the table with `matchesQuery`. -/
def SearchResultsList.get_queryset (q : Option String) (store : List Quote) :
    Except String (List Quote) :=
  match q with
  | none => Except.error "Cannot use None as a query value"
  | some s => Except.ok (store.filter (matchesQuery s))

/-- `QuoteList.get_queryset` (`src/quote/views.py` lines 8-11): the class sets only
`model = Quote`, so the queryset is `Quote.objects.all()` - the whole table in
default order (the model declares no `Meta.ordering`, so insertion order). -/
def QuoteList.get_queryset (store : List Quote) : List Quote := store

/-- The page object Django's `Paginator.page` returns: the slice of rows for one
page plus the counts that drive `has_next` / `has_previous`. -/
structure PageInfo where
  number : Nat
  count : Nat
  num_pages : Nat
  object_list : List Quote
  deriving DecidableEq

/-- Django `Paginator.num_pages`: `ceil (count / per_page)`, but at least one page
(the first page may be empty). -/
def numPages (count per : Nat) : Nat :=
  if count = 0 then 1 else (count + per - 1) / per

/-- Django `Paginator.page number`: valid for `1 ≤ number ≤ num_pages`, returning
rows `[(number-1)*per, number*per)` of the collection. -/
def paginate (records : List Quote) (per number : Nat) : Option PageInfo :=
  if 1 ≤ number ∧ number ≤ numPages records.length per then
    some { number := number
           count := records.length
           num_pages := numPages records.length per
           object_list := (records.drop ((number - 1) * per)).take per }
  else none

/-- Django `Page.has_next`. -/
def PageInfo.has_next (p : PageInfo) : Bool := decide (p.number < p.num_pages)

/-- Django `Page.has_previous`. -/
def PageInfo.has_previous (p : PageInfo) : Bool := decide (1 < p.number)

/-- The part of a `ListView` template context the claims are about. -/
structure ListContext where
  object_list : List Quote
  is_paginated : Bool
  page_obj : Option PageInfo
  deriving DecidableEq

/-- Django `MultipleObjectMixin.get_context_data`: when `paginate_by` is `None`
the queryset is handed over whole with `is_paginated = False` and no page object;
when it is a number, `paginate_queryset` slices the requested page. -/
def listViewContext (paginate_by : Option Nat) (queryset : List Quote)
    (number : Nat) : Option ListContext :=
  match paginate_by with
  | none => some { object_list := queryset, is_paginated := false, page_obj := none }
  | some per =>
    (paginate queryset per number).map fun pg =>
      { object_list := pg.object_list
        is_paginated := pg.has_next || pg.has_previous
        page_obj := some pg }

/-- `QuoteList` (`src/quote/views.py` lines 8-11) sets no `paginate_by`, so the
inherited `ListView` default `paginate_by = None` applies. -/
def QuoteList.paginate_by : Option Nat := none

/-- The context `QuoteList` renders for a request asking for page `number` of a
given store. -/
def QuoteList.context (store : List Quote) (number : Nat) : Option ListContext :=
  listViewContext QuoteList.paginate_by (QuoteList.get_queryset store) number

/-- The `Faker` instance of `src/quote/faker.py`, abstracted as the streams of
values its successive `fake.name()` and `fake.text()` calls produce. -/
structure FakeGen where
  name : Nat → String
  text : Nat → String

/-- `add_fake_data` (`src/quote/faker.py` lines 8-12): `for x in range(10000):`
`Quote.objects.create(name=fake.name(), quote=fake.text())`.  The count 10000 is a
literal in the loop header; the function takes no count argument.  `startId` is the
value of the table's id sequence, from which `create` assigns consecutive ids. -/
def add_fake_data (fake : FakeGen) (startId : Nat) (store : List Quote) : List Quote :=
  store ++ (List.range 10000).map fun x =>
    { id := startId + x, name := fake.name x, quote := fake.text x }

/-- The search endpoint as a state transformer: its output together with the store
it leaves behind (the queryset construction only reads). -/
def searchOp (q : Option String) (store : List Quote) :
    Except String (List Quote) × List Quote :=
  (SearchResultsList.get_queryset q store, store)

/-- The listing endpoint as a state transformer: read-only. -/
def listOp (store : List Quote) : List Quote × List Quote :=
  (QuoteList.get_queryset store, store)

/-- The spec's matching predicate, stated in its own words: the query occurs as a
case-insensitive substring of `name` or of `quote`.  Kept separate from
`matchesQuery` (the predicate read off the source) so the two can be compared. -/
def specMatch (q : String) (r : Quote) : Prop :=
  lowerChars q <:+: lowerChars r.name ∨ lowerChars q <:+: lowerChars r.quote

instance specMatch.decidable (q : String) (r : Quote) : Decidable (specMatch q r) :=
  inferInstanceAs (Decidable (_ ∨ _))

/-- The schema bounds declared in `src/quote/models.py`: `name` at most 250
characters, `quote` at most 1000. -/
def validQuote (r : Quote) : Bool :=
  r.name.length ≤ 250 && r.quote.length ≤ 1000

/-- The single record of the spec's worked scenario. -/
def ada : Quote := { id := 1, name := "Ada Lovelace", quote := "The engine weaves algebra" }

/-- The store of the spec's worked scenario. -/
def adaStore : List Quote := [ada]

/-- Character-wise lowercase conversion of a query string. -/
def lowerStr (s : String) : String := String.mk (s.data.map Char.toLower)

/-- Character-wise uppercase conversion of a query string. -/
def upperStr (s : String) : String := String.mk (s.data.map Char.toUpper)

theorem matchesQuery_iff_specMatch (q : String) (r : Quote) :
    matchesQuery q r = true ↔ specMatch q r := by
  simp [matchesQuery, icontains, specMatch]

/-- C1: for a present query string, the Query Builder succeeds and returns exactly
the rows whose name or quote contains the query case-insensitively: every returned
row matches (soundness) and every matching row of the store is returned
(completeness). -/
theorem C1_search_sound_complete (q : String) (store : List Quote) :
    ∃ res, SearchResultsList.get_queryset (some q) store = Except.ok res ∧
      ∀ r : Quote, r ∈ res ↔ r ∈ store ∧ specMatch q r := by
  refine ⟨store.filter (matchesQuery q), rfl, fun r => ?_⟩
  rw [List.mem_filter, matchesQuery_iff_specMatch]

/-- C8: on the one-record store of the worked scenario, the query algebra returns
the record, the query xyz returns nothing, and the present-but-empty query returns
the record. -/
theorem C8_scenario :
    SearchResultsList.get_queryset (some "algebra") adaStore = Except.ok adaStore ∧
    SearchResultsList.get_queryset (some "xyz") adaStore = Except.ok [] ∧
    SearchResultsList.get_queryset (some "") adaStore = Except.ok adaStore := by
  refine ⟨rfl, rfl, rfl⟩

theorem matchesQuery_empty (r : Quote) : matchesQuery "" r = true := by
  simp only [matchesQuery, icontains, Bool.or_eq_true, decide_eq_true_eq]
  exact Or.inl ⟨[], lowerChars r.name, by simp [lowerChars]⟩

/-- C2 counterexample: with the query parameter absent (request.GET.get gives
None), the queryset construction raises ValueError instead of returning the
unfiltered collection. -/
theorem C2_counterexample :
    SearchResultsList.get_queryset none adaStore ≠ Except.ok adaStore :=
  fun h => Except.noConfusion h

/-- C2 amended: a present-but-empty query returns the unfiltered full collection
in insertion order, identical to the unfiltered listing, and is not an error; an
absent query parameter, however, makes the filter construction raise
ValueError (Cannot use None as a query value) rather than return the collection. -/
theorem C2_empty_full_absent_error (store : List Quote) :
    SearchResultsList.get_queryset (some "") store =
      Except.ok (QuoteList.get_queryset store) ∧
    SearchResultsList.get_queryset none store =
      Except.error "Cannot use None as a query value" := by
  constructor
  · show Except.ok (store.filter (matchesQuery "")) = Except.ok store
    rw [List.filter_eq_self.mpr fun a _ => matchesQuery_empty a]
  · rfl

/-- C5: the Query Builder has no error conditions on string inputs: every present
string (the empty one included) yields a successful result, and a query matching
no stored row yields the empty result rather than a failure. -/
theorem C5_no_error (q : String) (store : List Quote) :
    (∃ res, SearchResultsList.get_queryset (some q) store = Except.ok res) ∧
    ((∀ r ∈ store, ¬ specMatch q r) →
      SearchResultsList.get_queryset (some q) store = Except.ok []) := by
  constructor
  · exact ⟨_, rfl⟩
  · intro h
    show Except.ok (store.filter (matchesQuery q)) = Except.ok []
    rw [List.filter_eq_nil_iff.mpr fun a ha hq =>
      h a ha ((matchesQuery_iff_specMatch q a).mp hq)]

/-- C5 witness: the concrete no-match query xyzzy on the scenario store succeeds
with the empty result. -/
theorem C5_no_error_witness :
    (∃ res, SearchResultsList.get_queryset (some "xyzzy") adaStore = Except.ok res) ∧
    SearchResultsList.get_queryset (some "xyzzy") adaStore = Except.ok [] :=
  ⟨(C5_no_error "xyzzy" adaStore).1, (C5_no_error "xyzzy" adaStore).2 (by decide)⟩

/-- C7: search and listing leave the store exactly as it was, and seeding only
appends: the old store is a prefix of the seeded store, so every pre-existing
record is unchanged. -/
theorem C7_read_only_append_only (q : Option String) (store : List Quote)
    (fake : FakeGen) (startId : Nat) :
    (searchOp q store).2 = store ∧ (listOp store).2 = store ∧
    store <+: add_fake_data fake startId store :=
  ⟨rfl, rfl, ⟨_, rfl⟩⟩

/-- A generator stream whose name values are empty: nothing in `add_fake_data`
filters or validates what the generator yields. -/
def emptyNameGen : FakeGen := { name := fun _ => "", text := fun _ => "body" }

/-- A concrete well-behaved generator stream. -/
def demoGen : FakeGen := { name := fun _ => "Alice", text := fun _ => "hello world" }

/-- C3 counterexample: the seed routine copies generator output into the new rows
unchecked, so a generator yielding an empty name produces a seeded record with
empty name; non-emptiness is a property of the external generator, not of
add_fake_data.  (The routine also takes no count argument at all: the 10000 is a
literal in its loop header.) -/
theorem C3_counterexample :
    ({ id := 1, name := "", quote := "body" } : Quote) ∈
      add_fake_data emptyNameGen 1 [] ∧
    ({ id := 1, name := "", quote := "body" } : Quote).name = "" := by
  constructor
  · show _ ∈ [] ++ (List.range 10000).map _
    rw [List.nil_append, List.mem_map]
    exact ⟨0, List.mem_range.mpr (by norm_num), rfl⟩
  · rfl

/-- C3 amended: add_fake_data takes no count parameter and always inserts exactly
10000 records, increasing the store's count by exactly 10000; each inserted
record carries the generator's outputs verbatim, so the new records all have
non-empty name and quote whenever the generator only yields non-empty strings. -/
theorem C3_seed_count (fake : FakeGen) (startId : Nat) (store : List Quote)
    (hn : ∀ i, fake.name i ≠ "") (ht : ∀ i, fake.text i ≠ "") :
    (add_fake_data fake startId store).length = store.length + 10000 ∧
    ∀ r ∈ (add_fake_data fake startId store).drop store.length,
      r.name ≠ "" ∧ r.quote ≠ "" := by
  unfold add_fake_data
  constructor
  · simp
  · rw [List.drop_left]
    intro r hr
    obtain ⟨i, _, rfl⟩ := List.mem_map.mp hr
    exact ⟨hn i, ht i⟩

/-- C3 witness: the amended statement at a concrete generator, sequence start and
empty store. -/
theorem C3_seed_count_witness :
    (add_fake_data demoGen 1 []).length = List.length ([] : List Quote) + 10000 ∧
    ∀ r ∈ (add_fake_data demoGen 1 []).drop (List.length ([] : List Quote)),
      r.name ≠ "" ∧ r.quote ≠ "" :=
  C3_seed_count demoGen 1 [] (fun _ => by show ("Alice" : String) ≠ ""; decide)
    (fun _ => by show ("hello world" : String) ≠ ""; decide)

/-- A store of 25 records, the collection size of the spec's pagination
scenario. -/
def store25 : List Quote :=
  (List.range 25).map fun i => { id := i + 1, name := "author", quote := "text" }

/-- C4 counterexample: QuoteList sets no paginate_by, so for the 25-record store
the context of page 1 carries all 25 records unpaginated (no page object), not a
10-record page. -/
theorem C4_counterexample :
    QuoteList.context store25 1 =
      some { object_list := store25, is_paginated := false, page_obj := none } ∧
    store25.length = 25 ∧
    ((QuoteList.context store25 1).map fun c => c.object_list.length) ≠ some 10 := by
  refine ⟨rfl, by decide, ?_⟩
  intro h
  simp only [QuoteList.context, QuoteList.paginate_by, QuoteList.get_queryset,
    listViewContext, Option.map_some] at h
  have : store25.length = 10 := Option.some.inj h
  simp [store25] at this

/-- C4 amended: QuoteList configures no page size (paginate_by is None), so the
listing is not paginated: for every store and every requested page number the
rendered context carries the entire collection in default order, with
is_paginated false and no page object or pagination metadata. -/
theorem C4_no_pagination (store : List Quote) (number : Nat) :
    QuoteList.context store number =
      some { object_list := store, is_paginated := false, page_obj := none } := rfl

/-- C6: the declared schema bounds are an invariant of every in-scope operation:
both fields are total (non-null) strings by construction, and if every stored row
respects the bounds and the seed generator only yields in-bound values, then every
row visible after a search, after a listing and after a seeding run respects
name ≤ 250 and quote ≤ 1000 characters. -/
theorem C6_schema_bounds (q : Option String) (store : List Quote)
    (fake : FakeGen) (startId : Nat)
    (hstore : ∀ r ∈ store, validQuote r = true)
    (hfake : ∀ i, (fake.name i).length ≤ 250 ∧ (fake.text i).length ≤ 1000) :
    (∀ res, SearchResultsList.get_queryset q store = Except.ok res →
      ∀ r ∈ res, validQuote r = true) ∧
    (∀ r ∈ QuoteList.get_queryset store, validQuote r = true) ∧
    (∀ r ∈ add_fake_data fake startId store, validQuote r = true) := by
  refine ⟨?_, hstore, ?_⟩
  · intro res hres r hr
    match q with
    | none => exact absurd hres (fun h => Except.noConfusion h)
    | some s =>
      have : res = store.filter (matchesQuery s) := (Except.ok.inj hres).symm
      exact hstore r (List.mem_filter.mp (this ▸ hr)).1
  · intro r hr
    rcases List.mem_append.mp hr with h | h
    · exact hstore r h
    · obtain ⟨i, _, rfl⟩ := List.mem_map.mp h
      simp only [validQuote, Bool.and_eq_true, decide_eq_true_eq]
      exact hfake i

/-- C6 witness: the invariant instantiated at the scenario store and a concrete
in-bound generator. -/
theorem C6_schema_bounds_witness :
    (∀ res, SearchResultsList.get_queryset (some "a") adaStore = Except.ok res →
      ∀ r ∈ res, validQuote r = true) ∧
    (∀ r ∈ QuoteList.get_queryset adaStore, validQuote r = true) ∧
    (∀ r ∈ add_fake_data demoGen 2 adaStore, validQuote r = true) :=
  C6_schema_bounds (some "a") adaStore demoGen 2 (by decide)
    (fun _ => ⟨by show String.length "Alice" ≤ 250; decide,
               by show String.length "hello world" ≤ 1000; decide⟩)

/-- A one-record store whose single row contains the query in both fields. -/
def dupStore : List Quote := [{ id := 7, name := "abc", quote := "abc" }]

/-- C10: on a store with pairwise-distinct primary keys, the OR of the two
substring conditions produces no duplicate rows: the result is a duplicate-free
subset of the store in which every returned row occurs exactly once, even when a
row matches on both fields. -/
theorem C10_no_duplicates (q : String) (store : List Quote)
    (hids : (store.map Quote.id).Nodup) :
    ∃ res, SearchResultsList.get_queryset (some q) store = Except.ok res ∧
      res.Nodup ∧ res ⊆ store ∧ ∀ r ∈ res, res.count r = 1 := by
  refine ⟨store.filter (matchesQuery q), rfl, ?_,
    fun r hr => (List.mem_filter.mp hr).1, ?_⟩
  · exact (List.Nodup.of_map _ hids).filter _
  · intro r hr
    exact List.count_eq_one_of_mem ((List.Nodup.of_map _ hids).filter _) hr

/-- C10 witness: the row matching the query in both name and quote is returned
exactly once. -/
theorem C10_no_duplicates_witness :
    ∃ res, SearchResultsList.get_queryset (some "b") dupStore = Except.ok res ∧
      res.Nodup ∧ res ⊆ dupStore ∧ ∀ r ∈ res, res.count r = 1 :=
  C10_no_duplicates "b" dupStore (by decide)

theorem toNat_ofNat_of_valid (n : Nat) (h : n < 55296) : (Char.ofNat n).toNat = n := by
  rw [Char.ofNat, dif_pos (Or.inl h)]
  rfl

theorem toLower_eq (c : Char) :
    c.toLower = if c.toNat ≥ 65 ∧ c.toNat ≤ 90 then Char.ofNat (c.toNat + 32) else c := rfl

theorem toUpper_eq (c : Char) :
    c.toUpper = if c.toNat ≥ 97 ∧ c.toNat ≤ 122 then Char.ofNat (c.toNat - 32) else c := rfl

theorem char_toLower_toLower (c : Char) : c.toLower.toLower = c.toLower := by
  by_cases h : c.toNat ≥ 65 ∧ c.toNat ≤ 90
  · have h2 : (Char.ofNat (c.toNat + 32)).toNat = c.toNat + 32 :=
      toNat_ofNat_of_valid _ (by omega)
    rw [toLower_eq c, if_pos h, toLower_eq, h2, if_neg (by omega)]
  · rw [toLower_eq c, if_neg h, toLower_eq c, if_neg h]

theorem char_toLower_toUpper (c : Char) : c.toUpper.toLower = c.toLower := by
  by_cases h : c.toNat ≥ 97 ∧ c.toNat ≤ 122
  · have h2 : (Char.ofNat (c.toNat - 32)).toNat = c.toNat - 32 :=
      toNat_ofNat_of_valid _ (by omega)
    rw [toUpper_eq c, if_pos h, toLower_eq, h2, if_pos (by omega),
      toLower_eq c, if_neg (by omega)]
    have h3 : c.toNat - 32 + 32 = c.toNat := by omega
    rw [h3, Char.ofNat_toNat]
  · rw [toUpper_eq c, if_neg h]

theorem lowerChars_lowerStr (s : String) : lowerChars (lowerStr s) = lowerChars s := by
  show (s.data.map Char.toLower).map Char.toLower = s.data.map Char.toLower
  rw [List.map_map]
  simp [Function.comp, char_toLower_toLower]

theorem lowerChars_upperStr (s : String) : lowerChars (upperStr s) = lowerChars s := by
  show (s.data.map Char.toUpper).map Char.toLower = s.data.map Char.toLower
  rw [List.map_map]
  simp [Function.comp, char_toLower_toUpper]

theorem filter_matchesQuery_congr (x y : String) (h : lowerChars x = lowerChars y)
    (store : List Quote) :
    store.filter (matchesQuery x) = store.filter (matchesQuery y) := by
  apply List.filter_congr
  intro r _
  simp [matchesQuery, icontains, h]

/-- C9: the search is invariant under the letter case of the query: the result
set for a query, for its lowercase conversion and for its uppercase conversion
coincide on every store. -/
theorem C9_case_insensitive (q : String) (store : List Quote) :
    SearchResultsList.get_queryset (some (lowerStr q)) store =
      SearchResultsList.get_queryset (some q) store ∧
    SearchResultsList.get_queryset (some (upperStr q)) store =
      SearchResultsList.get_queryset (some q) store := by
  constructor
  · show Except.ok _ = Except.ok _
    rw [filter_matchesQuery_congr _ _ (lowerChars_lowerStr q)]
  · show Except.ok _ = Except.ok _
    rw [filter_matchesQuery_congr _ _ (lowerChars_upperStr q)]

end DjangoSearch
